import Mathlib

/-!
Shallow embedding of the stm orchestration core: the data model
(SshHost, ConnectionManager, Tunnel, History, AddModalState), the reducer
state (AppState) and the message-at-a-time reducer (update), translated
from src/app.rs, src/ssh/config.rs, src/ssh/connection.rs,
src/ssh/tunnel.rs, src/state/history.rs and src/ui/add_modal.rs.

Modelling conventions:
* machine integers (u16, u32) are Nat; the embedded code only increments
  and compares them, so no wraparound is observable on these paths;
* Uuid is Nat; `Uuid::new_v4()` (external uuid crate) is modelled as a
  fresh-supply counter `nextId` carried in AppState, and freshness of a
  generated id is expressed by the hypothesis that every existing id is
  below it;
* `DateTime<Utc>` is Nat (the model clock `now` in AppState), PathBuf is
  String, and `Path::join` is string concatenation with a slash;
* I/O never happens inside the reducer: every `tokio::spawn` in
  src/app.rs is recorded as a SpawnedTask value, and the message such a
  task later sends is given by the corresponding completion function
  (healthCheckCompletion, toggleOpCompletion, disableForDeleteCompletion,
  teardownCompletion, connectTaskFailure), taking the task outcome (an
  Except) as a parameter;
* `is_port_available` (a live TCP bind probe, src/ssh/tunnel.rs) is an
  oracle parameter `avail : Nat → Bool` threaded into update;
* the `HashMap<String, HostHistory>` of src/state/history.rs is an
  association list with key-unique operations spelled out (lookupHost,
  saveTunnelsAux, recordConnAux);
* `ratatui::ListState` selections are Option Nat; pure-rendering state
  and the host-list navigation actions, which no claim concerns, are
  carried as inert fields of AppState.
-/

namespace Stm

/-- Model of `uuid::Uuid`: a natural number drawn from a fresh supply. -/
abbrev Uuid := Nat

/-- Mirrors struct `Tunnel` (src/ssh/tunnel.rs). `created_at` is the model
clock value at creation. -/
structure Tunnel where
  id : Uuid
  local_port : Nat
  remote_host : String
  remote_port : Nat
  enabled : Bool
  created_at : Nat
deriving DecidableEq

/-- Mirrors `Tunnel::new` (src/ssh/tunnel.rs). `freshId` models the
`Uuid::new_v4()` call and `now` models `Utc::now()`; the source field
order (local_port, remote_host, remote_port) is kept for the inputs. -/
def Tunnel.new (freshId : Uuid) (now : Nat) (local_port : Nat)
    (remote_host : String) (remote_port : Nat) : Tunnel :=
  { id := freshId
    local_port := local_port
    remote_host := remote_host
    remote_port := remote_port
    enabled := false
    created_at := now }

/-- Mirrors `Tunnel::forward_spec` (src/ssh/tunnel.rs). -/
def Tunnel.forward_spec (t : Tunnel) : String :=
  toString t.local_port ++ ":" ++ t.remote_host ++ ":" ++ toString t.remote_port

/-- Mirrors struct `SavedTunnel` (src/state/history.rs). -/
structure SavedTunnel where
  local_port : Nat
  remote_host : String
  remote_port : Nat
deriving DecidableEq

/-- Mirrors `impl From<&Tunnel> for SavedTunnel` (src/state/history.rs). -/
def SavedTunnel.ofTunnel (t : Tunnel) : SavedTunnel :=
  { local_port := t.local_port
    remote_host := t.remote_host
    remote_port := t.remote_port }

/-- Mirrors struct `HostHistory` (src/state/history.rs). -/
structure HostHistory where
  last_used : Nat
  use_count : Nat
  tunnels : List SavedTunnel
deriving DecidableEq

/-- Lookup in the association-list model of `HashMap<String, HostHistory>`:
the map is keyed by host name, `HashMap::get`. -/
def lookupHost : List (String × HostHistory) → String → Option HostHistory
  | [], _ => none
  | p :: rest, name => if p.1 = name then some p.2 else lookupHost rest name

/-- Update of the entry for a key, leaving the map unchanged when the key
is absent: the `HashMap::get_mut` pattern of `History::save_tunnels`. -/
def saveTunnelsAux : List (String × HostHistory) → String → List SavedTunnel →
    List (String × HostHistory)
  | [], _, _ => []
  | p :: rest, name, sts =>
    if p.1 = name then (p.1, { p.2 with tunnels := sts }) :: rest
    else p :: saveTunnelsAux rest name sts

/-- The `entry(..).or_insert(..)` pattern of `History::record_connection`:
update the entry when present, append a fresh one otherwise. The inserted
entry starts at use_count 0 and is immediately bumped to 1. -/
def recordConnAux : List (String × HostHistory) → String → Nat →
    List (String × HostHistory)
  | [], name, now => [(name, { last_used := now, use_count := 1, tunnels := [] })]
  | p :: rest, name, now =>
    if p.1 = name then
      (p.1, { p.2 with last_used := now, use_count := p.2.use_count + 1 }) :: rest
    else p :: recordConnAux rest name now

/-- Mirrors struct `History` (src/state/history.rs); the HashMap is an
association list with unique keys. -/
structure History where
  hosts : List (String × HostHistory)
deriving DecidableEq

/-- Mirrors `History::save_tunnels` (src/state/history.rs): only an
existing entry is updated, via `get_mut`. -/
def History.save_tunnels (h : History) (name : String) (ts : List Tunnel) : History :=
  { hosts := saveTunnelsAux h.hosts name (ts.map SavedTunnel.ofTunnel) }

/-- Mirrors `History::get_saved_tunnels` (src/state/history.rs). -/
def History.get_saved_tunnels (h : History) (name : String) : List SavedTunnel :=
  match lookupHost h.hosts name with
  | some hh => hh.tunnels
  | none => []

/-- Mirrors `History::record_connection` (src/state/history.rs). -/
def History.record_connection (h : History) (now : Nat) (name : String) : History :=
  { hosts := recordConnAux h.hosts name now }

/-- Mirrors struct `SshHost` (src/ssh/config.rs); paths are strings. -/
structure SshHost where
  name : String
  hostname : Option String
  user : Option String
  port : Option Nat
  identityFile : Option String
  proxyJump : Option String
deriving DecidableEq

/-- Mirrors `SshHost::effective_hostname` (src/ssh/config.rs). -/
def SshHost.effective_hostname (h : SshHost) : String :=
  h.hostname.getD h.name

/-- Mirrors `SshHost::effective_port` (src/ssh/config.rs). -/
def SshHost.effective_port (h : SshHost) : Nat :=
  h.port.getD 22

/-- Mirrors `SshHost::display_target` (src/ssh/config.rs). -/
def SshHost.display_target (h : SshHost) : String :=
  match h.user with
  | some u => u ++ "@" ++ h.effective_hostname
  | none => h.effective_hostname

/-- Mirrors struct `ConnectionManager` (src/ssh/connection.rs). The child
process handle is not represented: the reducer never reads it, and all
control operations go through the socket path and display target. -/
structure ConnectionManager where
  socketPath : String
  host : SshHost
deriving DecidableEq

/-- Mirrors `ConnectionManager::new` (src/ssh/connection.rs): the control
socket path is socket_dir joined with "effective_hostname-effective_port". -/
def ConnectionManager.new (host : SshHost) (socketDir : String) : ConnectionManager :=
  { socketPath := socketDir ++ "/" ++ host.effective_hostname ++ "-"
      ++ toString host.effective_port
    host := host }

/-- Numeric value of a list of ascii digits, most significant first. -/
def digitsVal (cs : List Char) : Nat :=
  cs.foldl (fun acc c => acc * 10 + (c.toNat - 48)) 0

/-- Mirrors Rust `str::parse::<u16>()` as used in `AddModalState::validate`:
an optional leading plus sign, then at least one ascii digit, with the
value at most 65535 (u16 range); anything else is a parse error. -/
def parseU16 (s : String) : Option Nat :=
  let cs :=
    match s.data with
    | c :: rest => if c = '+' then rest else c :: rest
    | [] => []
  if cs.isEmpty then none
  else if cs.all Char.isDigit then
    if digitsVal cs ≤ 65535 then some (digitsVal cs) else none
  else none

/-- Mirrors enum `ModalField` (src/ui/add_modal.rs). -/
inductive ModalField where
  | LocalPort
  | RemoteHost
  | RemotePort
deriving DecidableEq

/-- Mirrors struct `AddModalState` (src/ui/add_modal.rs). -/
structure AddModalState where
  local_port : String
  remote_host : String
  remote_port : String
  active_field : ModalField
  error_message : Option String
deriving DecidableEq

/-- Mirrors `AddModalState::new` (src/ui/add_modal.rs). -/
def AddModalState.new : AddModalState :=
  { local_port := ""
    remote_host := "localhost"
    remote_port := ""
    active_field := ModalField.LocalPort
    error_message := none }

/-- Mirrors `AddModalState::validate` (src/ui/add_modal.rs). The checks run
in source order: local port parses and is positive, remote host nonempty,
remote port parses and is positive, local port currently bindable (the
`is_port_available` probe, modelled by the oracle `avail`). On failure the
returned modal carries the field-level error message; on success the
modal is returned unchanged together with the validated triple. -/
def AddModalState.validate (avail : Nat → Bool) (m : AddModalState) :
    AddModalState × Option (Nat × String × Nat) :=
  match parseU16 m.local_port with
  | some lp =>
    if 0 < lp then
      if m.remote_host.data.isEmpty then
        ({ m with error_message := some "Remote host cannot be empty" }, none)
      else
        match parseU16 m.remote_port with
        | some rp =>
          if 0 < rp then
            if avail lp then
              (m, some (lp, m.remote_host, rp))
            else
              let msg := "Port " ++ toString lp ++ " is already in use"
              ({ m with error_message := some msg }, none)
          else ({ m with error_message := some "Invalid remote port" }, none)
        | none => ({ m with error_message := some "Invalid remote port" }, none)
    else ({ m with error_message := some "Invalid local port" }, none)
  | none => ({ m with error_message := some "Invalid local port" }, none)

/-- Mirrors enum `Panel` (src/app.rs). -/
inductive Panel where
  | Hosts
  | Tunnels
deriving DecidableEq

/-- Mirrors enum `ConnectionStatus` (src/app.rs). -/
inductive ConnectionStatus where
  | Disconnected
  | Connecting
  | Connected (name : String)
  | Error (msg : String)
deriving DecidableEq

/-- Mirrors enum `NotificationLevel` (src/app.rs). -/
inductive NotificationLevel where
  | Success
  | Error
  | Info
deriving DecidableEq

/-- Mirrors struct `Notification` (src/app.rs). -/
structure Notification where
  message : String
  level : NotificationLevel
deriving DecidableEq

/-- The subset of enum `Action` (src/action.rs) handled by this embedding:
the connection, tunnel and modal-submission messages the claims concern.
The host-list navigation, search, help and modal-editing messages touch
only fields no embedded message reads. -/
inductive Action where
  | Tick
  | ConnectionFailed (msg : String)
  | Disconnect
  | Disconnected
  | ModalSubmit
  | TunnelFailed (msg : String)
  | ToggleTunnel (idx : Nat)
  | TunnelToggled (id : Uuid) (enabled : Bool)
  | DeleteTunnel (idx : Nat)
  | TunnelDeleted (id : Uuid)
deriving DecidableEq

/-- A detached unit of work spawned by the reducer (`tokio::spawn` in
src/app.rs), recorded with the snapshot values the source moves into the
task closure. -/
inductive SpawnedTask where
  | healthCheck (socketPath : String) (target : String)
  | teardown (conn : ConnectionManager)
  | toggleOp (socketPath : String) (target : String) (tunnel : Tunnel)
  | disableForDelete (socketPath : String) (target : String) (tunnel : Tunnel)
deriving DecidableEq

/-- Mirrors struct `App` (src/app.rs), minus the raw terminal and channel
handles: `action_tx` sends become the `sent` list of a step result,
`ListState` selections are Option Nat, and `config` is represented by the
one field the reducer reads from it (socket_dir). `nextId` and `now` are
the model UUID supply and clock. -/
structure AppState where
  running : Bool
  hosts : List SshHost
  hostSelected : Option Nat
  activePanel : Panel
  searchQuery : String
  searchMode : Bool
  filteredHostIndices : List Nat
  showHelp : Bool
  connection : Option ConnectionManager
  connectionStatus : ConnectionStatus
  socketDir : String
  tickCount : Nat
  tunnels : List Tunnel
  tunnelSelected : Option Nat
  addModal : Option AddModalState
  history : History
  notification : Option Notification
  notificationTicks : Nat
  nextId : Nat
  now : Nat
deriving DecidableEq

/-- Result of applying one message: the new state, the messages sent
synchronously through action_tx during the step, and the detached tasks
spawned during the step. -/
structure StepResult where
  state : AppState
  sent : List Action
  spawned : List SpawnedTask
deriving DecidableEq

/-- Mirrors `App::notify` (src/app.rs). -/
def notify (s : AppState) (message : String) (level : NotificationLevel) : AppState :=
  { s with notification := some { message := message, level := level }
           notificationTicks := 0 }

/-- Mirrors `App::fix_tunnel_selection` (src/app.rs). -/
def fix_tunnel_selection (s : AppState) : AppState :=
  if s.tunnels.isEmpty then { s with tunnelSelected := none }
  else
    match s.tunnelSelected with
    | some sel =>
      if s.tunnels.length ≤ sel then
        { s with tunnelSelected := some (s.tunnels.length - 1) }
      else s
    | none => s

/-- Mirrors the `Action::TunnelToggled` body (src/app.rs): set the enabled
flag of the first registry entry whose id matches, the
`iter_mut().find(..)` pattern; no entry is touched when no id matches. -/
def setEnabledById : List Tunnel → Uuid → Bool → List Tunnel
  | [], _, _ => []
  | t :: rest, id, en =>
    if t.id = id then { t with enabled := en } :: rest
    else t :: setEnabledById rest id en

/-- Index of the first registry entry with the given id (list length when
absent); used to state which single entry `setEnabledById` rewrites. -/
def firstIdxWithId : List Tunnel → Uuid → Nat
  | [], _ => 0
  | t :: rest, id => if t.id = id then 0 else firstIdxWithId rest id + 1

/-- Mirrors `App::update` (src/app.rs) on the embedded messages. `avail`
is the `is_port_available` oracle used by modal validation. Disk writes
(`history.save()`) have no in-process state effect and are not modelled.
In the Disconnect arm, the two consecutive if-lets of the source on
`self.connection` (save tunnels, then take-and-spawn) both fire exactly
when a connection is current, so they collapse into one match. -/
def update (avail : Nat → Bool) (s : AppState) (a : Action) : StepResult :=
  match a with
  | Action.Tick =>
    let s1 := { s with tickCount := s.tickCount + 1 }
    let s2 :=
      if s1.notification.isSome then
        let s3 := { s1 with notificationTicks := s1.notificationTicks + 1 }
        if 16 ≤ s3.notificationTicks then { s3 with notification := none } else s3
      else s1
    if s2.tickCount % 40 = 0 then
      match s2.connectionStatus, s2.connection with
      | ConnectionStatus.Connected _, some conn =>
        { state := s2, sent := []
          spawned := [SpawnedTask.healthCheck conn.socketPath conn.host.display_target] }
      | _, _ => { state := s2, sent := [], spawned := [] }
    else { state := s2, sent := [], spawned := [] }
  | Action.ConnectionFailed msg =>
    let s1 := notify s ("Connection failed: " ++ msg) NotificationLevel.Error
    { state := { s1 with connectionStatus := ConnectionStatus.Error msg
                         connection := none
                         tunnels := [] }
      sent := [], spawned := [] }
  | Action.Disconnect =>
    match s.connection with
    | some conn =>
      { state := { s with history := History.save_tunnels s.history conn.host.name s.tunnels
                          connection := none
                          connectionStatus := ConnectionStatus.Disconnected
                          tunnels := []
                          tunnelSelected := none }
        sent := [], spawned := [SpawnedTask.teardown conn] }
    | none => { state := s, sent := [], spawned := [] }
  | Action.Disconnected =>
    { state := { s with connection := none
                        connectionStatus := ConnectionStatus.Disconnected
                        tunnels := []
                        tunnelSelected := none }
      sent := [], spawned := [] }
  | Action.ModalSubmit =>
    match s.addModal with
    | some modal =>
      match AddModalState.validate avail modal with
      | (_, some (lp, rh, rp)) =>
        let tunnels := s.tunnels ++ [Tunnel.new s.nextId s.now lp rh rp]
        let idx := tunnels.length - 1
        { state := { s with tunnels := tunnels
                            nextId := s.nextId + 1
                            addModal := none
                            tunnelSelected := some idx
                            activePanel := Panel.Tunnels }
          sent := [Action.ToggleTunnel idx], spawned := [] }
      | (modal2, none) =>
        { state := { s with addModal := some modal2 }, sent := [], spawned := [] }
    | none => { state := s, sent := [], spawned := [] }
  | Action.TunnelFailed msg =>
    { state := notify s ("Tunnel error: " ++ msg) NotificationLevel.Error
      sent := [], spawned := [] }
  | Action.ToggleTunnel idx =>
    match s.tunnels[idx]?, s.connection with
    | some t, some conn =>
      { state := s, sent := []
        spawned := [SpawnedTask.toggleOp conn.socketPath conn.host.display_target t] }
    | _, _ => { state := s, sent := [], spawned := [] }
  | Action.TunnelToggled id en =>
    { state := { s with tunnels := setEnabledById s.tunnels id en }
      sent := [], spawned := [] }
  | Action.DeleteTunnel idx =>
    match s.tunnels[idx]? with
    | some t =>
      if t.enabled then
        match s.connection with
        | some conn =>
          { state := s, sent := []
            spawned := [SpawnedTask.disableForDelete conn.socketPath
                          conn.host.display_target t] }
        | none => { state := s, sent := [], spawned := [] }
      else
        { state := fix_tunnel_selection
            { s with tunnels := s.tunnels.filter (fun u => u.id ≠ t.id) }
          sent := [], spawned := [] }
    | none => { state := s, sent := [], spawned := [] }
  | Action.TunnelDeleted id =>
    { state := fix_tunnel_selection
        { s with tunnels := s.tunnels.filter (fun t => t.id ≠ id) }
      sent := [], spawned := [] }

/-- Message the detached health-check task of the Tick arm (src/app.rs)
sends: nothing when the liveness probe succeeds, `ConnectionFailed
"Connection lost"` when the probe runs but reports a dead master, and
`ConnectionFailed e` when the probe command itself fails with error e. -/
def healthCheckCompletion : Except String Bool → Option Action
  | Except.ok true => none
  | Except.ok false => some (Action.ConnectionFailed "Connection lost")
  | Except.error e => some (Action.ConnectionFailed e)

/-- Message the detached connect task of the Action::Connect arm
(src/app.rs) sends when `ConnectionManager::connect` fails with reason e. -/
def connectTaskFailure (e : String) : Action :=
  Action.ConnectionFailed e

/-- Message the detached teardown task of the Action::Disconnect arm
(src/app.rs) sends when the disconnect call returns. -/
def teardownCompletion : Action :=
  Action.Disconnected

/-- Message the detached enable/disable task of the Action::ToggleTunnel
arm (src/app.rs) sends: on success, TunnelToggled with the snapshot id and
the negation of the snapshot flag; on failure, TunnelFailed with the
diagnostic. -/
def toggleOpCompletion (t : Tunnel) : Except String Unit → Action
  | Except.ok _ => Action.TunnelToggled t.id (!t.enabled)
  | Except.error e => Action.TunnelFailed e

/-- Message the detached disable task of the Action::DeleteTunnel arm
(src/app.rs) sends once the disable attempt finishes: TunnelDeleted with
the snapshot id, whatever the attempt outcome (the source discards the
remove_tunnel result). -/
def disableForDeleteCompletion (t : Tunnel) (_res : Except String Unit) : Action :=
  Action.TunnelDeleted t.id

/-- The validity condition for modal submission as the spec states it:
local port parses positive and is currently bindable, remote host is
nonempty, remote port parses positive. Stated independently of
`AddModalState.validate` so the two can be compared. -/
def specValid (avail : Nat → Bool) (m : AddModalState) : Bool :=
  (match parseU16 m.local_port with
   | some lp => decide (0 < lp) && avail lp
   | none => false)
  && !m.remote_host.data.isEmpty
  && (match parseU16 m.remote_port with
      | some rp => decide (0 < rp)
      | none => false)

/-! Concrete example values used by witnesses and counterexamples. -/

/-- A sample host record with explicit hostname, user and port. -/
def hostA : SshHost :=
  { name := "alpha", hostname := some "10.0.0.1", user := some "root",
    port := some 2222, identityFile := none, proxyJump := none }

/-- The connection manager for hostA under the default socket directory. -/
def connA : ConnectionManager := ConnectionManager.new hostA "/tmp/stm"

/-- A sample disabled tunnel. -/
def tunnelA : Tunnel :=
  { id := 1, local_port := 5432, remote_host := "db", remote_port := 5432,
    enabled := false, created_at := 0 }

/-- A sample enabled tunnel. -/
def tunnelB : Tunnel :=
  { id := 2, local_port := 8080, remote_host := "web", remote_port := 80,
    enabled := true, created_at := 0 }

/-- A disconnected reducer state with empty registry and empty history. -/
def baseState : AppState :=
  { running := true, hosts := [], hostSelected := none, activePanel := Panel.Hosts,
    searchQuery := "", searchMode := false, filteredHostIndices := [], showHelp := false,
    connection := none, connectionStatus := ConnectionStatus.Disconnected,
    socketDir := "/tmp/stm", tickCount := 0, tunnels := [], tunnelSelected := none,
    addModal := none, history := { hosts := [] }, notification := none,
    notificationTicks := 0, nextId := 100, now := 0 }

/-- A port-availability oracle under which every port is bindable. -/
def avail0 : Nat → Bool := fun _ => true

/-! Helper lemmas about the embedded operations. -/

theorem setEnabledById_length (ts : List Tunnel) (id : Uuid) (en : Bool) :
    (setEnabledById ts id en).length = ts.length := by
  induction ts with
  | nil => rfl
  | cons t rest ih =>
    by_cases ht : t.id = id <;> simp [setEnabledById, ht, ih]

theorem setEnabledById_of_forall_ne (ts : List Tunnel) (id : Uuid) (en : Bool)
    (h : ∀ t ∈ ts, t.id ≠ id) : setEnabledById ts id en = ts := by
  induction ts with
  | nil => rfl
  | cons t rest ih =>
    have h1 : t.id ≠ id := h t (List.mem_cons_self t rest)
    have h2 : ∀ u ∈ rest, u.id ≠ id := fun u hu => h u (List.mem_cons_of_mem t hu)
    simp [setEnabledById, h1, ih h2]

theorem setEnabledById_get? (ts : List Tunnel) (id : Uuid) (en : Bool) (i : Nat) :
    (setEnabledById ts id en)[i]? =
      if i = firstIdxWithId ts id then
        (ts[i]?).map (fun t => { t with enabled := en })
      else ts[i]? := by
  induction ts generalizing i with
  | nil => simp [setEnabledById, firstIdxWithId, List.get?]
  | cons t rest ih =>
    by_cases ht : t.id = id
    · cases i with
      | zero => simp [setEnabledById, firstIdxWithId, ht, List.get?]
      | succ n => simp [setEnabledById, firstIdxWithId, ht, List.get?]
    · cases i with
      | zero => simp [setEnabledById, firstIdxWithId, ht, List.get?]
      | succ n => simp [setEnabledById, firstIdxWithId, ht, List.get?, ih]

theorem lookupHost_saveTunnelsAux (hosts : List (String × HostHistory))
    (name : String) (sts : List SavedTunnel) :
    lookupHost (saveTunnelsAux hosts name sts) name =
      (lookupHost hosts name).map (fun hh => { hh with tunnels := sts }) := by
  induction hosts with
  | nil => rfl
  | cons p rest ih =>
    by_cases hp : p.1 = name
    · simp [saveTunnelsAux, lookupHost, hp]
    · simp [saveTunnelsAux, lookupHost, hp, ih]

theorem get_saved_tunnels_save (h : History) (name : String) (ts : List Tunnel)
    (hh : HostHistory) (hfound : lookupHost h.hosts name = some hh) :
    (h.save_tunnels name ts).get_saved_tunnels name = ts.map SavedTunnel.ofTunnel := by
  simp [History.save_tunnels, History.get_saved_tunnels,
    lookupHost_saveTunnelsAux, hfound]

theorem fix_tunnel_selection_tunnels (s : AppState) :
    (fix_tunnel_selection s).tunnels = s.tunnels := by
  unfold fix_tunnel_selection
  by_cases h : s.tunnels.isEmpty
  · simp [h]
  · simp only [h, if_false]
    cases s.tunnelSelected with
    | none => rfl
    | some sel =>
      by_cases hl : s.tunnels.length ≤ sel <;> simp [hl]

/-! Claim theorems. -/

/-- C1: applying TunnelToggled(identity, flag) resolves the target by
identity, never by list position: only the tunnels field of the state may
change, no messages are sent and no task is spawned, the registry keeps
its length, a missing identity leaves the whole state unchanged, and
pointwise only the first entry carrying the identity gets its enabled
flag set to the given flag while every other entry is untouched. -/
theorem tunnelToggled_resolves_by_identity (avail : Nat → Bool) (s : AppState)
    (id : Uuid) (flag : Bool) :
    (update avail s (Action.TunnelToggled id flag)).sent = [] ∧
    (update avail s (Action.TunnelToggled id flag)).spawned = [] ∧
    (update avail s (Action.TunnelToggled id flag)).state
      = { s with tunnels := (update avail s (Action.TunnelToggled id flag)).state.tunnels } ∧
    (update avail s (Action.TunnelToggled id flag)).state.tunnels.length
      = s.tunnels.length ∧
    ((∀ t ∈ s.tunnels, t.id ≠ id) →
      (update avail s (Action.TunnelToggled id flag)).state = s) ∧
    (∀ i, (update avail s (Action.TunnelToggled id flag)).state.tunnels[i]? =
      if i = firstIdxWithId s.tunnels id then
        (s.tunnels[i]?).map (fun t => { t with enabled := flag })
      else s.tunnels[i]?) := by
  refine ⟨rfl, rfl, rfl, setEnabledById_length s.tunnels id flag, ?_, ?_⟩
  · intro h
    show ({ s with tunnels := setEnabledById s.tunnels id flag } : AppState) = s
    rw [setEnabledById_of_forall_ne s.tunnels id flag h]
  · intro i
    exact setEnabledById_get? s.tunnels id flag i

/-- Reducer state holding two tunnels, used by the C1 witness. -/
def c1State : AppState := { baseState with tunnels := [tunnelA, tunnelB] }

/-- Witness for C1: toggling id 2 to false in a two-tunnel registry
rewrites exactly the entry at position 1. -/
theorem tunnelToggled_resolves_by_identity_witness :
    (update avail0 c1State (Action.TunnelToggled 2 false)).state.tunnels[1]?
      = some { tunnelB with enabled := false } := by
  have h := (tunnelToggled_resolves_by_identity avail0 c1State 2 false).2.2.2.2.2 1
  rw [h]
  decide

/-- C2: applying ConnectionFailed(reason) sets the status to Error(reason),
drops the current session and empties the registry, for every state; the
detached health-check task and the detached connect task report failure
through the same ConnectionFailed message, so the two failure sources
produce identical resulting states. -/
theorem connectionFailed_uniform_teardown (avail : Nat → Bool) (s : AppState)
    (reason : String) :
    (update avail s (Action.ConnectionFailed reason)).state.connectionStatus
      = ConnectionStatus.Error reason ∧
    (update avail s (Action.ConnectionFailed reason)).state.connection = none ∧
    (update avail s (Action.ConnectionFailed reason)).state.tunnels = [] ∧
    healthCheckCompletion (Except.error reason) = some (connectTaskFailure reason) ∧
    healthCheckCompletion (Except.ok false)
      = some (Action.ConnectionFailed "Connection lost") ∧
    update avail s (connectTaskFailure reason)
      = update avail s (Action.ConnectionFailed reason) :=
  ⟨rfl, rfl, rfl, rfl, rfl, rfl⟩

/-- C7: applying TunnelFailed(msg) only raises a transient notification:
the resulting state is exactly the input state with a fresh error
notification, so status, session, registry and every enabled flag are
untouched, and nothing is sent or spawned; the failure arm of the
enable/disable task completion is exactly such a TunnelFailed message. -/
theorem tunnelFailed_notification_only (avail : Nat → Bool) (s : AppState)
    (msg : String) (t : Tunnel) (e : String) :
    (update avail s (Action.TunnelFailed msg)).state
      = notify s ("Tunnel error: " ++ msg) NotificationLevel.Error ∧
    (update avail s (Action.TunnelFailed msg)).state.connectionStatus
      = s.connectionStatus ∧
    (update avail s (Action.TunnelFailed msg)).state.connection = s.connection ∧
    (update avail s (Action.TunnelFailed msg)).state.tunnels = s.tunnels ∧
    (update avail s (Action.TunnelFailed msg)).sent = [] ∧
    (update avail s (Action.TunnelFailed msg)).spawned = [] ∧
    toggleOpCompletion t (Except.error e) = Action.TunnelFailed e :=
  ⟨rfl, rfl, rfl, rfl, rfl, rfl, rfl⟩

/-- C10: a DeleteTunnel request for an enabled tunnel while no session is
current is a complete no-op: the state is unchanged, no message is sent
and no disable task or deletion completion is dispatched. -/
theorem deleteTunnel_noop_when_disconnected (avail : Nat → Bool) (s : AppState)
    (idx : Nat) (t : Tunnel) (hconn : s.connection = none)
    (ht : s.tunnels[idx]? = some t) (hen : t.enabled = true) :
    update avail s (Action.DeleteTunnel idx)
      = { state := s, sent := [], spawned := [] } := by
  simp [update, ht, hen, hconn]

/-- C3: deleting the tunnel at position idx never removes an enabled
tunnel from the registry in the same step: the registry is unchanged and
nothing is sent, and when a session is current the step only spawns the
disable task, whose completion message (for every outcome of the disable
attempt) is the TunnelDeleted message carrying the tunnel identity;
applying TunnelDeleted is what removes the entry; a disabled tunnel is
instead removed from the registry immediately in the same step. -/
theorem deleteTunnel_defers_enabled_removal (avail : Nat → Bool) (s : AppState)
    (idx : Nat) (t : Tunnel) (hidx : s.tunnels[idx]? = some t) :
    (t.enabled = true →
      (update avail s (Action.DeleteTunnel idx)).state.tunnels = s.tunnels ∧
      (update avail s (Action.DeleteTunnel idx)).sent = [] ∧
      (∀ conn, s.connection = some conn →
        (update avail s (Action.DeleteTunnel idx)).spawned
          = [SpawnedTask.disableForDelete conn.socketPath conn.host.display_target t] ∧
        (∀ res, disableForDeleteCompletion t res = Action.TunnelDeleted t.id))) ∧
    (t.enabled = false →
      (update avail s (Action.DeleteTunnel idx)).state.tunnels
        = s.tunnels.filter (fun u => u.id ≠ t.id) ∧
      (update avail s (Action.DeleteTunnel idx)).sent = [] ∧
      (update avail s (Action.DeleteTunnel idx)).spawned = []) ∧
    (∀ id2, (update avail s (Action.TunnelDeleted id2)).state.tunnels
      = s.tunnels.filter (fun u => u.id ≠ id2)) := by
  refine ⟨?_, ?_, ?_⟩
  · intro hen
    refine ⟨?_, ?_, ?_⟩
    · cases hc : s.connection <;> simp [update, hidx, hen, hc]
    · cases hc : s.connection <;> simp [update, hidx, hen, hc]
    · intro conn hconn
      refine ⟨?_, fun res => rfl⟩
      simp [update, hidx, hen, hconn]
  · intro hen
    refine ⟨?_, ?_, ?_⟩
    · simp [update, hidx, hen, fix_tunnel_selection_tunnels]
    · simp [update, hidx, hen, fix_tunnel_selection]
    · simp [update, hidx, hen, fix_tunnel_selection]
  · intro id2
    simp [update, fix_tunnel_selection_tunnels]

/-- Connected reducer state with an enabled tunnel first in the registry,
used by the C3 witness. -/
def c3State : AppState :=
  { baseState with
      tunnels := [tunnelB, tunnelA],
      connection := some connA,
      connectionStatus := ConnectionStatus.Connected "alpha" }

/-- Witness for C3: deleting the enabled tunnel at position 0 leaves the
registry unchanged and spawns only the disable task for it. -/
theorem deleteTunnel_defers_enabled_removal_witness :
    (update avail0 c3State (Action.DeleteTunnel 0)).state.tunnels = c3State.tunnels ∧
    (update avail0 c3State (Action.DeleteTunnel 0)).spawned
      = [SpawnedTask.disableForDelete connA.socketPath connA.host.display_target tunnelB] := by
  have h := deleteTunnel_defers_enabled_removal avail0 c3State 0 tunnelB rfl
  exact ⟨(h.1 rfl).1, ((h.1 rfl).2.2 connA rfl).1⟩

/-- Connected state for host alpha whose host name has no history entry,
used by the C4 counterexample. -/
def c4BadState : AppState :=
  { baseState with
      connection := some connA,
      connectionStatus := ConnectionStatus.Connected "alpha",
      tunnels := [tunnelA] }

/-- Counterexample for C4 as stated: with a current session for host
alpha but no history entry for it, applying Disconnect does not persist
the registry specs to history (History::save_tunnels only updates an
existing entry), so loading the saved tunnels afterwards does not return
the registry specs. -/
theorem disconnect_persist_counterexample :
    c4BadState.connection = some connA ∧
    ¬ ((update avail0 c4BadState Action.Disconnect).state.history.get_saved_tunnels
        connA.host.name = c4BadState.tunnels.map SavedTunnel.ofTunnel) :=
  ⟨rfl, by decide⟩

/-- C4 amended: for every state with a current session for host H whose
host name already has a history entry (as created when a connection is
recorded), Disconnect persists the registry specs to history keyed by the
host name, sets the status to Disconnected immediately (the teardown task
is only spawned in this step), clears the registry and the session; and
applying the later teardown-completion message to the resulting state
re-establishes exactly the same state (idempotent). -/
theorem disconnect_persists_and_idempotent (avail : Nat → Bool) (s : AppState)
    (conn : ConnectionManager) (hh : HostHistory)
    (hconn : s.connection = some conn)
    (hhist : lookupHost s.history.hosts conn.host.name = some hh) :
    (update avail s Action.Disconnect).state.history.get_saved_tunnels conn.host.name
      = s.tunnels.map SavedTunnel.ofTunnel ∧
    (update avail s Action.Disconnect).state.connectionStatus
      = ConnectionStatus.Disconnected ∧
    (update avail s Action.Disconnect).state.connection = none ∧
    (update avail s Action.Disconnect).state.tunnels = [] ∧
    (update avail s Action.Disconnect).spawned = [SpawnedTask.teardown conn] ∧
    teardownCompletion = Action.Disconnected ∧
    update avail (update avail s Action.Disconnect).state Action.Disconnected
      = { state := (update avail s Action.Disconnect).state, sent := [], spawned := [] } := by
  refine ⟨?_, ?_, ?_, ?_, ?_, rfl, ?_⟩
  · simp only [update, hconn]
    exact get_saved_tunnels_save s.history conn.host.name s.tunnels hh hhist
  · simp [update, hconn]
  · simp [update, hconn]
  · simp [update, hconn]
  · simp [update, hconn]
  · simp [update, hconn]

/-- History holding an entry for host alpha with no saved tunnels. -/
def histAlpha : History :=
  { hosts := [("alpha", { last_used := 5, use_count := 1, tunnels := [] })] }

/-- Connected state for host alpha with a history entry for it, used by
the C4 witness. -/
def c4GoodState : AppState :=
  { baseState with
      connection := some connA,
      connectionStatus := ConnectionStatus.Connected "alpha",
      tunnels := [tunnelA],
      history := histAlpha }

/-- Witness for C4 amended: disconnecting from alpha, which has a history
entry, saves the registry spec under alpha and reports Disconnected. -/
theorem disconnect_persists_and_idempotent_witness :
    (update avail0 c4GoodState Action.Disconnect).state.history.get_saved_tunnels
      connA.host.name = c4GoodState.tunnels.map SavedTunnel.ofTunnel ∧
    (update avail0 c4GoodState Action.Disconnect).state.connectionStatus
      = ConnectionStatus.Disconnected := by
  have h := disconnect_persists_and_idempotent avail0 c4GoodState connA
    { last_used := 5, use_count := 1, tunnels := [] } rfl (by decide)
  exact ⟨h.1, h.2.1⟩

/-- C5: a tunnel produced by Tunnel::new has its enabled flag false, and
its identity, drawn fresh from the UUID supply (modelled by the
hypothesis that every existing identity is below the fresh one), is
distinct from the identity of every existing tunnel. -/
theorem tunnelNew_disabled_and_fresh (freshId now local_port : Nat)
    (remote_host : String) (remote_port : Nat) (existing : List Tunnel)
    (hfresh : ∀ t ∈ existing, t.id < freshId) :
    (Tunnel.new freshId now local_port remote_host remote_port).enabled = false ∧
    ∀ t ∈ existing,
      t.id ≠ (Tunnel.new freshId now local_port remote_host remote_port).id := by
  refine ⟨rfl, fun t ht => ?_⟩
  exact Nat.ne_of_lt (hfresh t ht)

/-- Witness for C5: a tunnel created with fresh id 50 next to two existing
tunnels is disabled and its id differs from an existing id. -/
theorem tunnelNew_disabled_and_fresh_witness :
    (Tunnel.new 50 0 9000 "cache" 6379).enabled = false ∧
    tunnelA.id ≠ (Tunnel.new 50 0 9000 "cache" 6379).id := by
  have h := tunnelNew_disabled_and_fresh 50 0 9000 "cache" 6379 [tunnelA, tunnelB]
    (by decide)
  exact ⟨h.1, h.2 tunnelA (by decide)⟩

/-- Counterexample for C6 as stated: saving tunnels for a host into an
empty history is a no-op (History::save_tunnels only updates an existing
entry), so loading afterwards does not return the saved specs. -/
theorem history_roundtrip_counterexample :
    ((History.mk []).save_tunnels "beta" [tunnelA]).get_saved_tunnels "beta"
      ≠ [tunnelA].map SavedTunnel.ofTunnel := by decide

/-- C6 amended: for every host name that already has a history entry (as
created when a connection is recorded) and every list of tunnels, saving
that host's tunnels and then loading the saved tunnels for that host
returns exactly the specs of the saved list: equal as lists, with the
same count, and entrywise the spec of the tunnel at the same position. -/
theorem history_roundtrip_of_existing_entry (h : History) (name : String)
    (ts : List Tunnel) (hh : HostHistory)
    (hfound : lookupHost h.hosts name = some hh) :
    (h.save_tunnels name ts).get_saved_tunnels name = ts.map SavedTunnel.ofTunnel ∧
    ((h.save_tunnels name ts).get_saved_tunnels name).length = ts.length ∧
    ∀ i : Nat, ((h.save_tunnels name ts).get_saved_tunnels name)[i]?
      = (ts[i]?).map SavedTunnel.ofTunnel := by
  have hmain := get_saved_tunnels_save h name ts hh hfound
  refine ⟨hmain, ?_, ?_⟩
  · simp [hmain]
  · intro i
    simp [hmain]

/-- Witness for C6 amended: with an existing entry for alpha, saving two
tunnels and loading them back returns exactly their specs. -/
theorem history_roundtrip_of_existing_entry_witness :
    (History.save_tunnels histAlpha "alpha" [tunnelA, tunnelB]).get_saved_tunnels "alpha"
      = [tunnelA, tunnelB].map SavedTunnel.ofTunnel := by
  have h := history_roundtrip_of_existing_entry histAlpha "alpha" [tunnelA, tunnelB]
    { last_used := 5, use_count := 1, tunnels := [] } (by decide)
  exact h.1

/-- C9: the effective address of a target is its explicit hostname when
present and otherwise its name; the effective port is its explicit port
when present and otherwise 22; the display identity is user at address
when a user is set and otherwise the address; and the control-socket path
is a function of exactly the effective address and effective port: two
targets agreeing on those two values receive the same socket path. -/
theorem sessionTarget_fields_and_socket (h : SshHost) (h2 : SshHost) (dir : String) :
    (∀ hn, h.hostname = some hn → h.effective_hostname = hn) ∧
    (h.hostname = none → h.effective_hostname = h.name) ∧
    (∀ p, h.port = some p → h.effective_port = p) ∧
    (h.port = none → h.effective_port = 22) ∧
    (∀ u, h.user = some u → h.display_target = u ++ "@" ++ h.effective_hostname) ∧
    (h.user = none → h.display_target = h.effective_hostname) ∧
    (h.effective_hostname = h2.effective_hostname →
      h.effective_port = h2.effective_port →
      (ConnectionManager.new h dir).socketPath
        = (ConnectionManager.new h2 dir).socketPath) := by
  refine ⟨?_, ?_, ?_, ?_, ?_, ?_, ?_⟩
  · intro hn hhn
    simp [SshHost.effective_hostname, hhn]
  · intro hhn
    simp [SshHost.effective_hostname, hhn]
  · intro p hp
    simp [SshHost.effective_port, hp]
  · intro hp
    simp [SshHost.effective_port, hp]
  · intro u hu
    simp [SshHost.display_target, hu]
  · intro hu
    simp [SshHost.display_target, hu]
  · intro he hp
    simp [ConnectionManager.new, he, hp]

/-- A second alias for the same effective address and port as hostA but
with a different name and no user, used by the C9 witness. -/
def hostA2 : SshHost :=
  { name := "alias2", hostname := some "10.0.0.1", user := none,
    port := some 2222, identityFile := none, proxyJump := none }

/-- Witness for C9: hostA and hostA2 agree on effective address and port,
so they receive the same control-socket path. -/
theorem sessionTarget_fields_and_socket_witness :
    (ConnectionManager.new hostA "/tmp/stm").socketPath
      = (ConnectionManager.new hostA2 "/tmp/stm").socketPath :=
  (sessionTarget_fields_and_socket hostA hostA2 "/tmp/stm").2.2.2.2.2.2 rfl rfl

theorem validate_characterization (avail : Nat → Bool) (m : AddModalState) :
    ((AddModalState.validate avail m).2).isSome = specValid avail m ∧
    (∀ lp rp, parseU16 m.local_port = some lp → parseU16 m.remote_port = some rp →
      specValid avail m = true →
      AddModalState.validate avail m = (m, some (lp, m.remote_host, rp))) ∧
    (specValid avail m = false →
      ∃ m2, AddModalState.validate avail m = (m2, none)
        ∧ m2.error_message.isSome = true) := by
  rcases hlp : parseU16 m.local_port with _ | lp
  · refine ⟨?_, ?_, ?_⟩
    · simp [AddModalState.validate, specValid, hlp]
    · intro lp rp h1 h2 h3
      exact Option.noConfusion h1
    · intro hfalse
      refine ⟨{ m with error_message := some "Invalid local port" }, ?_, rfl⟩
      simp [AddModalState.validate, hlp]
  · by_cases hpos : 0 < lp
    · by_cases hempty : m.remote_host.data.isEmpty = true
      · refine ⟨?_, ?_, ?_⟩
        · simp [AddModalState.validate, specValid, hlp, hpos, hempty]
        · intro lp2 rp2 h1 h2 h3
          simp [specValid, hlp, hempty] at h3
        · intro hfalse
          refine ⟨{ m with error_message := some "Remote host cannot be empty" }, ?_, rfl⟩
          simp [AddModalState.validate, hlp, hpos, hempty]
      · rcases hrp : parseU16 m.remote_port with _ | rp
        · refine ⟨?_, ?_, ?_⟩
          · simp [AddModalState.validate, specValid, hlp, hpos, hempty, hrp]
          · intro lp2 rp2 h1 h2 h3
            exact Option.noConfusion h2
          · intro hfalse
            refine ⟨{ m with error_message := some "Invalid remote port" }, ?_, rfl⟩
            simp [AddModalState.validate, hlp, hpos, hempty, hrp]
        · by_cases hrpos : 0 < rp
          · by_cases hav : avail lp = true
            · refine ⟨?_, ?_, ?_⟩
              · simp [AddModalState.validate, specValid, hlp, hpos, hempty, hrp,
                  hrpos, hav]
              · intro lp2 rp2 h1 h2 h3
                injection h1 with h1
                injection h2 with h2
                subst h1
                subst h2
                simp [AddModalState.validate, hlp, hpos, hempty, hrp, hrpos, hav]
              · intro hfalse
                simp [specValid, hlp, hpos, hempty, hrp, hrpos, hav] at hfalse
            · refine ⟨?_, ?_, ?_⟩
              · simp [AddModalState.validate, specValid, hlp, hpos, hempty, hrp,
                  hrpos, hav]
              · intro lp2 rp2 h1 h2 h3
                injection h1 with h1
                subst h1
                simp [specValid, hlp, hpos, hrp, hav] at h3
              · intro hfalse
                refine ⟨{ m with error_message := some ("Port " ++ toString lp ++ " is already in use") }, ?_, rfl⟩
                simp [AddModalState.validate, hlp, hpos, hempty, hrp, hrpos, hav]
          · refine ⟨?_, ?_, ?_⟩
            · simp [AddModalState.validate, specValid, hlp, hpos, hempty, hrp, hrpos]
            · intro lp2 rp2 h1 h2 h3
              injection h2 with h2
              subst h2
              simp [specValid, hlp, hrp, hrpos] at h3
            · intro hfalse
              refine ⟨{ m with error_message := some "Invalid remote port" }, ?_, rfl⟩
              simp [AddModalState.validate, hlp, hpos, hempty, hrp, hrpos]
    · refine ⟨?_, ?_, ?_⟩
      · simp [AddModalState.validate, specValid, hlp, hpos]
      · intro lp2 rp2 h1 h2 h3
        injection h1 with h1
        subst h1
        simp [specValid, hlp, hpos] at h3
      · intro hfalse
        refine ⟨{ m with error_message := some "Invalid local port" }, ?_, rfl⟩
        simp [AddModalState.validate, hlp, hpos]

/-- C8: on modal submission a tunnel is appended exactly when the spec
validity condition holds (local port parses positive and is bindable per
the probe oracle, remote host nonempty, remote port parses positive); on
success the appended tunnel is the new disabled tunnel built from the
validated fields, an enable request for its position is sent immediately
and focus shifts to the tunnel list; any violation appends nothing, sends
nothing and keeps the modal open with an error message set. -/
theorem modalSubmit_validation_gate (avail : Nat → Bool) (s : AppState)
    (m : AddModalState) (hm : s.addModal = some m) :
    ((update avail s Action.ModalSubmit).state.tunnels.length
        = s.tunnels.length + 1 ↔ specValid avail m = true) ∧
    (∀ lp rp, parseU16 m.local_port = some lp → parseU16 m.remote_port = some rp →
      specValid avail m = true →
      (update avail s Action.ModalSubmit).state.tunnels
        = s.tunnels ++ [Tunnel.new s.nextId s.now lp m.remote_host rp] ∧
      (Tunnel.new s.nextId s.now lp m.remote_host rp).enabled = false ∧
      (update avail s Action.ModalSubmit).sent
        = [Action.ToggleTunnel s.tunnels.length] ∧
      (update avail s Action.ModalSubmit).state.addModal = none ∧
      (update avail s Action.ModalSubmit).state.activePanel = Panel.Tunnels ∧
      (update avail s Action.ModalSubmit).state.tunnelSelected
        = some s.tunnels.length) ∧
    (specValid avail m = false →
      (update avail s Action.ModalSubmit).state.tunnels = s.tunnels ∧
      (update avail s Action.ModalSubmit).sent = [] ∧
      (update avail s Action.ModalSubmit).spawned = [] ∧
      ∃ m2, (update avail s Action.ModalSubmit).state.addModal = some m2
        ∧ m2.error_message.isSome = true) := by
  obtain ⟨hsome, hsucc, hfail⟩ := validate_characterization avail m
  rcases hval : AddModalState.validate avail m with ⟨m2, res⟩
  rcases res with _ | ⟨lp, rh, rp⟩
  · have hsv : specValid avail m = false := by
      rw [hval] at hsome
      simpa using hsome.symm
    refine ⟨?_, ?_, ?_⟩
    · constructor
      · intro hlen
        have hts : (update avail s Action.ModalSubmit).state.tunnels = s.tunnels := by
          simp [update, hm, hval]
        rw [hts] at hlen
        exact absurd hlen (by omega)
      · intro htrue
        rw [hsv] at htrue
        exact Bool.noConfusion htrue
    · intro lp2 rp2 h1 h2 h3
      rw [hsv] at h3
      exact Bool.noConfusion h3
    · intro hfalse
      obtain ⟨m3, hval2, herr⟩ := hfail hsv
      rw [hval] at hval2
      injection hval2 with hm3 hres
      subst hm3
      refine ⟨?_, ?_, ?_, ⟨m2, ?_, herr⟩⟩
      · simp [update, hm, hval]
      · simp [update, hm, hval]
      · simp [update, hm, hval]
      · simp [update, hm, hval]
  · have hsv : specValid avail m = true := by
      rw [hval] at hsome
      simpa using hsome.symm
    refine ⟨?_, ?_, ?_⟩
    · refine iff_of_true ?_ hsv
      simp [update, hm, hval]
    · intro lp2 rp2 hplp hprp h3
      have heq := hsucc lp2 rp2 hplp hprp hsv
      rw [hval] at heq
      simp only [Prod.mk.injEq, Option.some.injEq] at heq
      obtain ⟨hm2, hlp2, hrh, hrp2⟩ := heq
      subst hlp2
      subst hrh
      subst hrp2
      refine ⟨?_, rfl, ?_, ?_, ?_, ?_⟩
      · simp [update, hm, hval]
      · simp [update, hm, hval]
      · simp [update, hm, hval]
      · simp [update, hm, hval]
      · simp [update, hm, hval]
    · intro hfalse
      rw [hfalse] at hsv
      exact Bool.noConfusion hsv

/-- The modal fields of a valid submission, used by the C8 witness. -/
def modal8 : AddModalState :=
  { local_port := "8080", remote_host := "localhost", remote_port := "80",
    active_field := ModalField.LocalPort, error_message := none }

/-- Reducer state with the valid modal open, used by the C8 witness. -/
def c8State : AppState := { baseState with addModal := some modal8 }

/-- Witness for C8: submitting the valid modal appends exactly one
tunnel. -/
theorem modalSubmit_validation_gate_witness :
    (update avail0 c8State Action.ModalSubmit).state.tunnels.length
      = c8State.tunnels.length + 1 := by
  have h := (modalSubmit_validation_gate avail0 c8State modal8 rfl).1
  exact h.mpr (by decide)

/-- Witness for C10: deleting the enabled tunnel at position 0 while
disconnected leaves the step without effect. -/
theorem deleteTunnel_noop_when_disconnected_witness :
    update avail0 { baseState with tunnels := [tunnelB] } (Action.DeleteTunnel 0)
      = { state := { baseState with tunnels := [tunnelB] }, sent := [], spawned := [] } :=
  deleteTunnel_noop_when_disconnected avail0 _ 0 tunnelB rfl rfl rfl

end Stm
